import Mathlib

/-!
Shallow embedding of the Blastfield simulation core (a TypeScript artillery
game) and proofs about its turn, damage, terrain and weapon-effect logic.

Sources embedded here:
* `src/src/state/useGameStore.ts` — the Zustand store: `initializeGame`, `nextTurn`.
* `src/src/game/Player.ts` — both `takeDamage` variants.
* `src/unnamed/part_003` — the two GameEngine variants: `applyAreaDamage`,
  `applyLineDamage`, the beam branch, the cluster/MIRV spawners, the
  black-hole attractor, the fire guards and the collision handlers.
* The destructible segmented `Terrain` (`destroyAt`) and the
  `consumeAmmo`/cooldown store are referenced by callers only and are
  modelled from the specification where noted.

JavaScript numbers are modelled as `ℚ` (the programs only do field
arithmetic, `Math.round`, `Math.max`, `Math.sqrt` and comparisons on them;
comparisons against square roots are encoded by comparing squares against
the squared bound, which is equivalent over non-negative reals and noted at
each use). `Math.round` agrees with Mathlib's `round` (half away from minus
infinity: `round x = ⌊x + 1/2⌋`). `Math.random()` draws are passed in as an
explicit parameter `r` with `0 ≤ r < 1`.
-/

namespace Blastfield

/-- A unit (combatant) as far as the store logic inspects it: the store's
`initializeGame` only ever reads `id` (`all.find((u) => u.id === id)`). -/
structure Unit where
  id : String
deriving DecidableEq

/-- A weapon definition from the catalog (`weapons.json` entries as consumed
by the GameEngine.tsx collision handler): string `effect` tag, blast radius
and base damage. -/
structure Weapon where
  id : String
  effect : String
  radius : ℚ
  damage : ℚ
deriving DecidableEq

/-- The slice of the Zustand store state mutated by `initializeGame` and
`nextTurn` (src/src/state/useGameStore.ts). `units` holds `Option Unit`
because the JS pad expression `chosen[0] ?? all[0]` evaluates to `undefined`
when both arrays are empty and is pushed as-is. -/
structure GameState where
  setupCompleted : Bool
  currentTurn : Nat
  units : List (Option Unit)
  wind : ℚ
  unitsPerTeam : Nat
deriving DecidableEq

/-- Embedding of `initializeGame` (useGameStore.ts lines 73-101).
`selectedUnitIds = some ids` with `ids` non-empty maps each id through
`all.find` and drops misses (`filter(Boolean)`); otherwise the first
`unitsPerTeam * 2` catalog units are taken. The while-loop that pushes
`chosen[0] ?? all[0]` until the required count is reached is rendered as
appending replicas of that pad value (after the first push the pad value is
itself `chosen[0]`, so the value is the same on every iteration), and the
final `slice(0, requiredCount)` as `take`. `r` is the `Math.random()` draw
used for the wind. -/
def initializeGame (all : List Unit) (s : GameState)
    (selectedUnitIds : Option (List String)) (r : ℚ) : GameState :=
  let requiredCount := s.unitsPerTeam * 2
  let chosen : List Unit :=
    match selectedUnitIds with
    | some ids =>
        if ids.length > 0 then
          ids.filterMap (fun i => all.find? (fun u => u.id == i))
        else all.take requiredCount
    | none => all.take requiredCount
  let padVal : Option Unit :=
    match chosen.head? with
    | some u => some u
    | none => all.head?
  let padded := chosen.map some ++ List.replicate (requiredCount - chosen.length) padVal
  { s with
    units := padded.take requiredCount
    setupCompleted := true
    currentTurn := 0
    wind := (r - 1/2) * 2 }

/-- Embedding of `nextTurn` (useGameStore.ts lines 102-110): the new acting
index is `(currentTurn + 1) % units.length`, with no inspection of unit
health or elimination, and the wind is re-randomised from the draw `r`. -/
def nextTurn (s : GameState) (r : ℚ) : GameState :=
  { s with
    currentTurn := (s.currentTurn + 1) % s.units.length
    wind := (r - 1/2) * 2 }

/-- Embedding of the first `Player.takeDamage` variant (Player.ts lines
57-68): with an active shield the amount is scaled by 0.6 (40% reduction,
floored at 0), health is decremented with no clamp, and the returned flag
(`lethal`, which makes `applyAreaDamage` filter the player out of the
roster) is whether the resulting health is `≤ 0`. -/
def takeDamageV1 (shieldActive : Bool) (health amount : ℚ) : ℚ × Bool :=
  let final := if shieldActive then max 0 (amount * (6/10)) else amount
  (health - final, decide (health - final ≤ 0))

/-- Embedding of the second `Player.takeDamage` variant (Player.ts lines
264-275): health is decremented with no clamp; the flag records whether the
unit is removed from the stage and physics world (`health <= 0`). -/
def takeDamageV2 (health amount : ℚ) : ℚ × Bool :=
  (health - amount, decide (health - amount ≤ 0))

/-- Health after a sequence of second-variant `takeDamage` applications. -/
def runDamageSeqV2 (health : ℚ) (amounts : List ℚ) : ℚ :=
  amounts.foldl (fun h a => (takeDamageV2 h a).1) health

/-- Per-unit damage dealt by `applyAreaDamage` (part_003 lines 246-262) to a
living unit at exact distance `dist` from the blast centre: inside the
radius, `falloff = 1 - dist/radius` and `dealt = round(damage * (0.5 +
0.5*falloff))`; outside, nothing. The source computes `dist` as
`Math.sqrt(dx*dx + dy*dy)`; theorems connect `dist` to a displacement
`(dx, dy)` through the hypothesis `dx^2 + dy^2 = dist^2` with `0 ≤ dist`. -/
def areaDealt (radius damage dist : ℚ) : ℤ :=
  if dist ≤ radius then
    let falloff := 1 - dist / radius
    round (damage * (1/2 + 1/2 * falloff))
  else 0

/-- Per-unit damage in the GameEngine.tsx `collisionStart` handler (part_003
lines 436-443): every player within the explosion radius takes the flat
catalog damage, with no falloff. -/
def tsxBlastDealt (radius damage dist : ℚ) : ℚ :=
  if dist ≤ radius then damage else 0

/-- Recursion worker for `destroyAt`, carrying the index of the current
segment so each segment's horizontal position is `index * segWidth`. -/
def destroyAtAux (segWidth x radius : ℚ) : Nat → List ℚ → List ℚ
  | _, [] => []
  | i, h :: rest =>
      (if |(i : ℚ) * segWidth - x| ≤ radius then
        max 0 (h - (radius - |(i : ℚ) * segWidth - x|))
      else h) :: destroyAtAux segWidth x radius (i + 1) rest

/-- Modelled from the spec: the destructible segmented Terrain is not under
src — `src/src/game/Terrain.ts` holds only a static slab, while the
GameEngine callers (part_003 lines 427-434 and 629-632) invoke `destroyAt`
and `getHeightAt` of a segmented variant that is missing. Spec section 4.1:
for every segment whose horizontal distance from `x` is at most `radius`,
reduce the stored height by `radius - distance` (linear falloff: the full
radius at the epicentre, zero at the edge), clamped at 0. -/
def destroyAt (segWidth : ℚ) (heights : List ℚ) (x radius : ℚ) : List ℚ :=
  destroyAtAux segWidth x radius 0 heights

/-- A sequence of `destroyAt` calls, each a pair `(x, radius)`, applied in
order to the stored heights. -/
def destroySeq (segWidth : ℚ) (heights : List ℚ) (calls : List (ℚ × ℚ)) : List ℚ :=
  calls.foldl (fun hs c => destroyAt segWidth hs c.1 c.2) heights

/-- The `weaponDamageSpec` table of the first GameEngine variant (part_003
lines 212-219): blast radius and damage per projectile kind. -/
def weaponDamageSpec (kind : String) : Option (ℚ × ℚ) :=
  if kind = "rocket" then some (40, 30)
  else if kind = "plasma_ball" then some (25, 20)
  else if kind = "cluster_child" then some (20, 15)
  else if kind = "nuke" then some (100, 100)
  else if kind = "meteor" then some (20, 15)
  else if kind = "mirv_child" then some (25, 18)
  else none

/-- The `advanceTurn` field of `handleWeaponImpact`'s result (part_003 lines
221-244): the radius branch, the teleport branch and the default branch all
return `advanceTurn: true`. -/
def handleWeaponImpactAdvance (kind : String) : Bool :=
  match weaponDamageSpec kind with
  | some _ => true
  | none => if kind = "teleport" then true else true

/-- Projectiles spawned by one firing action in `fireProjectileFrom`
(part_003 lines 134-210), by selected weapon kind: `meteor_shower` drops 5
meteors; `laser_beam` and `black_hole` spawn none (direct effects); `mirv`
launches a shell that releases 5 children mid-flight (all six eventually
impact); every other kind launches a single projectile of that kind. -/
def firedProjectiles (kind : String) : List String :=
  if kind = "meteor_shower" then List.replicate 5 "meteor"
  else if kind = "laser_beam" then []
  else if kind = "black_hole" then []
  else if kind = "mirv" then "mirv_shell" :: List.replicate 5 "mirv_child"
  else [kind]

/-- `nextTurn` calls scheduled by `fireProjectileFrom` itself, without any
projectile impact: the laser beam (after 300 ms) and the black hole (on
expiry) each schedule exactly one. -/
def directAdvancesOnFire (kind : String) : Nat :=
  if kind = "laser_beam" then 1 else if kind = "black_hole" then 1 else 0

/-- Turn advances produced by a whole firing action in the first GameEngine
variant, assuming every spawned projectile eventually impacts once and
resolves (the ricochet skip aside): `onCollision` (part_003 lines 60-88)
schedules one `nextTurn` per impact whose `handleWeaponImpact` result has
`advanceTurn = true`, on top of the direct advances. -/
def turnAdvancesPerFiring (kind : String) : Nat :=
  directAdvancesOnFire kind
    + ((firedProjectiles kind).filter (fun k => handleWeaponImpactAdvance k)).length

/-- Modelled from the spec: the store variant providing `ammo` counters and
`cooldowns` (destructured by the part_003 key handler) is not under src —
only its callers are. Spec section 4.3 and section 3: per-weapon ammo
counters where an absent entry means unlimited, and per-weapon cooldown
milliseconds remaining. -/
structure ArmedStore where
  ammo : String → Option Nat
  cooldowns : String → Nat

/-- Modelled from the spec: `consumeAmmo` is called by the part_003 key
handler but defined in the missing store. Spec section 4.3: `consume`
decrements if tracked and positive, fails (returns false, no decrement) if
tracked and already 0, and always succeeds without change for untracked
(unlimited) weapons. -/
def consumeAmmo (s : ArmedStore) (w : String) : Bool × ArmedStore :=
  match s.ammo w with
  | none => (true, s)
  | some 0 => (false, s)
  | some (n + 1) => (true, { s with ammo := fun v => if v = w then some n else s.ammo v })

/-- Modelled from the spec: `setCooldown` is called by the part_003 key
handler but defined in the missing store. Spec section 4.3: sets the
remaining cooldown to the max of the current value and the new one. -/
def setCooldown (s : ArmedStore) (w : String) (ms : Nat) : ArmedStore :=
  { s with cooldowns := fun v => if v = w then max (s.cooldowns v) ms else s.cooldowns v }

/-- The fire guard of the part_003 key handler (lines 103-110): an active
(nonzero) cooldown blocks, then a failed `consumeAmmo` blocks; otherwise one
projectile is fired and an 800 ms cooldown is set. Returns the resulting
store and the number of projectiles spawned. -/
def handleFireKey (s : ArmedStore) (w : String) : ArmedStore × Nat :=
  if s.cooldowns w ≠ 0 then (s, 0)
  else
    match consumeAmmo s w with
    | (false, s1) => (s1, 0)
    | (true, s1) => (setCooldown s1 w 800, 1)

/-- The firing effect of GameEngine.tsx (part_003 lines 594-693): when the
acting player is alive it performs the weapon behaviour — teleport, fly and
beam are direct effects, everything else spawns one projectile — and then
`finishTurn` runs (`decreaseAmmo` wrapped in try/catch, `nextTurn`, flag
reset). The source's ammo check is disabled (its comment: temporarily allow
firing regardless of ammo), so the `ammoCount` argument is never consulted.
Returns (projectiles spawned, turn advances). -/
def tsxFiringEffect (ammoCount : Nat) (alive : Bool) (effect : String) : Nat × Nat :=
  if alive = false then (0, 0)
  else if effect = "teleport" then (0, 1)
  else if effect = "fly" then (0, 1)
  else if effect = "beam" then (0, 1)
  else (1, 1)

/-- Fragment weapon built by the cluster/MIRV branch of the GameEngine.tsx
collision handler (part_003 lines 452-457): the parent weapon with the
effect overridden to `blast` and radius/damage halved with floors 20 and
10. The `id` is inherited unchanged by the object spread. -/
def fragWeapon (w : Weapon) : Weapon :=
  { w with
    effect := "blast"
    radius := max 20 (w.radius * (1/2))
    damage := max 10 (w.damage * (1/2)) }

/-- Fragments spawned on impact by the cluster/MIRV branch (part_003 lines
444-467): 4 for effect `cluster`, 5 for effect `multiple`, each carrying
`fragWeapon`; other effects spawn nothing. -/
def spawnFragments (w : Weapon) : List Weapon :=
  if w.effect = "cluster" ∨ w.effect = "multiple" then
    List.replicate (if w.effect = "cluster" then 4 else 5) (fragWeapon w)
  else []

/-- Weapon resolution in the GameEngine.tsx collision handler (part_003
lines 413-416): the impacting projectile's weapon is looked up in the
catalog by the `plugin.weaponId` stored on the body — not taken from the
`Projectile.weapon` field. -/
def resolveWeapon (catalog : List Weapon) (weaponId : String) : Option Weapon :=
  catalog.find? (fun w => w.id == weaponId)

/-- Fragments spawned when a projectile carrying weapon `projWeapon`
impacts: the handler resolves the weapon through the catalog by id and runs
the cluster branch on the resolved definition (an unresolved id spawns
nothing, since `weapon?.effect` is undefined). -/
def impactSpawns (catalog : List Weapon) (projWeapon : Weapon) : List Weapon :=
  match resolveWeapon catalog projWeapon.id with
  | some w => spawnFragments w
  | none => []

/-- Hit predicate of `applyLineDamage` (part_003 lines 264-281). The source
computes `dist = |A*px + B*py + C| / (Math.sqrt(A*A + B*B) || 1)` and hits
when `dist < 20` (strictly). Encoded without square roots: when the segment
is degenerate (`A = B = 0`, so the sqrt is 0 and the `|| 1` fallback makes
the denominator 1) the comparison is `|A*px + B*py + C| < 20`; otherwise
`dist < 20` is equivalent to comparing squares against `20^2 * (A^2 + B^2)`
because both sides are non-negative and the denominator is positive. -/
def lineHitStrict (x1 y1 x2 y2 px py : ℚ) : Bool :=
  let A := y2 - y1
  let B := x1 - x2
  let C := x2 * y1 - x1 * y2
  if A = 0 ∧ B = 0 then |A * px + B * py + C| < 20
  else (A * px + B * py + C) ^ 2 < 20 ^ 2 * (A ^ 2 + B ^ 2)

/-- Damage `applyLineDamage` deals to a unit at `(px, py)` for a beam
segment from `(x1, y1)` to `(x2, y2)`: the flat `damage` on a hit, nothing
otherwise. -/
def applyLineDamageDealt (x1 y1 x2 y2 px py damage : ℚ) : ℚ :=
  if lineHitStrict x1 y1 x2 y2 px py then damage else 0

/-- Hit predicate of the GameEngine.tsx beam branch (part_003 lines
654-665). The source computes `dist = num / den` when `den > 0` (`Infinity`
otherwise, which never hits) and hits when `dist <= 20` (inclusive).
Encoded by comparing squares, equivalent since both sides are non-negative
and the denominator is positive when its square is nonzero. -/
def beamHit (mx my ex ey px py : ℚ) : Bool :=
  let num := (ey - my) * px - (ex - mx) * py + ex * my - ey * mx
  let den2 := (ey - my) ^ 2 + (ex - mx) ^ 2
  if den2 = 0 then false else num ^ 2 ≤ 20 ^ 2 * den2

/-- Per-unit damage of the GameEngine.tsx beam branch: dead units and the
acting unit (`idx === currentTurn`) are skipped; a hit applies the flat
weapon damage. -/
def beamDealt (currentTurn idx : Nat) (alive : Bool)
    (mx my ex ey px py damage : ℚ) : ℚ :=
  if alive = false ∨ idx = currentTurn then 0
  else if beamHit mx my ex ey px py then damage else 0

/-- Per-tick force the black-hole well applies to a non-static body
(part_003 lines 170-179): displacement `(dx, dy)` from the body to the
well, squared distance clamped below at 100, scalar `f = 0.0005 / dist2`,
force `(dx * f, dy * f)`. `0.0005 = 1/2000`. -/
def blackHoleForce (wx wy px py : ℚ) : ℚ × ℚ :=
  let dx := wx - px
  let dy := wy - py
  let dist2 := max 100 (dx * dx + dy * dy)
  let f := (1 / 2000) / dist2
  (dx * f, dy * f)

/-- Black-hole lifetime: the `setTimeout` that tears the well down fires
after 2000 ms (part_003 lines 180-184). -/
def blackHoleLifetimeMs : Nat := 2000

/-- Black-hole tick period: the attraction interval runs every 16 ms
(part_003 line 179). -/
def blackHoleTickMs : Nat := 16

/-- What the black-hole expiry callback does (part_003 lines 180-184). -/
structure BlackHoleExpiry where
  removesWell : Bool
  advancesTurn : Bool

/-- The expiry callback clears the interval, removes the well body from the
world and calls `nextTurn`. -/
def blackHoleExpiry : BlackHoleExpiry :=
  { removesWell := true, advancesTurn := true }

/-- A concrete four-unit roster for the turn-rotation scenario. -/
def fourUnits : List (Option Unit) :=
  [some { id := "u0" }, some { id := "u1" }, some { id := "u2" }, some { id := "u3" }]

/-- A concrete match state: four units, acting unit index 1. -/
def exampleMatchState : GameState :=
  { setupCompleted := true, currentTurn := 1, units := fourUnits, wind := 0, unitsPerTeam := 2 }

/-- The elimination set of the turn-rotation scenario: exactly unit index 2
is eliminated. The store itself holds no elimination data, so the predicate
lives outside `GameState`. -/
def exampleEliminated (i : Nat) : Bool := i == 2

/-- The pristine store state before `initializeGame` (useGameStore.ts lines
54-66, with the default 1 unit per team). -/
def defaultState : GameState :=
  { setupCompleted := false, currentTurn := 0, units := [], wind := 0, unitsPerTeam := 1 }

/-- A concrete unit catalog. -/
def exampleCatalogUnits : List Unit :=
  [{ id := "tank" }, { id := "drone" }, { id := "walker" }, { id := "subterra" }]

/-- A concrete cluster weapon. -/
def clusterBomb : Weapon :=
  { id := "cluster_bomb", effect := "cluster", radius := 50, damage := 40 }

/-- A catalog containing the cluster weapon. -/
def exampleCatalog : List Weapon := [clusterBomb]

/-- A concrete armed store: `rocket` is tracked with 0 ammo and an 800 ms
cooldown running; `nuke` is tracked with 3 rounds and no cooldown. -/
def exampleStore : ArmedStore :=
  { ammo := fun v => if v = "rocket" then some 0 else if v = "nuke" then some 3 else none
    cooldowns := fun v => if v = "rocket" then 800 else 0 }

/-! Helper lemmas. -/

/-- Folding second-variant damage applications with non-negative amounts
never increases health. -/
theorem runDamageSeqV2_le (amounts : List ℚ) :
    ∀ h : ℚ, (∀ x ∈ amounts, 0 ≤ x) → runDamageSeqV2 h amounts ≤ h := by
  induction amounts with
  | nil => intro h _; exact le_refl h
  | cons a rest ih =>
      intro h hall
      have ha : 0 ≤ a := hall a (List.mem_cons_self a rest)
      have step : runDamageSeqV2 h (a :: rest) = runDamageSeqV2 (h - a) rest := rfl
      have tail := ih (h - a) (fun x hx => hall x (List.mem_cons_of_mem a hx))
      rw [step]
      linarith

/-- One `destroyAt` pass leaves every segment non-negative and no higher
than before, provided the stored heights were non-negative. -/
theorem destroyAtAux_nonneg_le (w x r : ℚ) :
    ∀ (i : Nat) (hs : List ℚ), (∀ h ∈ hs, 0 ≤ h) →
      List.Forall₂ (fun a b => 0 ≤ a ∧ a ≤ b) (destroyAtAux w x r i hs) hs := by
  intro i hs
  induction hs generalizing i with
  | nil => intro _; exact List.Forall₂.nil
  | cons h rest ih =>
      intro hnn
      have hh : 0 ≤ h := hnn h (List.mem_cons_self _ _)
      have htail := ih (i + 1) (fun y hy => hnn y (List.mem_cons_of_mem _ hy))
      refine List.Forall₂.cons ?_ htail
      by_cases hd : |(i : ℚ) * w - x| ≤ r
      · rw [if_pos hd]
        have hdelta : 0 ≤ r - |(i : ℚ) * w - x| := by
          have := abs_nonneg ((i : ℚ) * w - x)
          linarith
        exact ⟨le_max_left 0 _, max_le hh (by linarith)⟩
      · rw [if_neg hd]
        exact ⟨hh, le_refl h⟩

/-- The left list of a pointwise `0 ≤ a ∧ a ≤ b` relation is non-negative. -/
theorem forall2_left_nonneg {as bs : List ℚ}
    (hab : List.Forall₂ (fun a b => 0 ≤ a ∧ a ≤ b) as bs) : ∀ a ∈ as, 0 ≤ a := by
  induction hab with
  | nil => intro a ha; simp at ha
  | cons hpair _ ih =>
      intro a ha
      rcases List.mem_cons.mp ha with rfl | ha2
      · exact hpair.1
      · exact ih a ha2

/-- Pointwise `0 ≤ a ∧ a ≤ b` composes transitively. -/
theorem forall2_nonneg_le_trans {as bs cs : List ℚ}
    (h1 : List.Forall₂ (fun a b => 0 ≤ a ∧ a ≤ b) as bs)
    (h2 : List.Forall₂ (fun a b => 0 ≤ a ∧ a ≤ b) bs cs) :
    List.Forall₂ (fun a b => 0 ≤ a ∧ a ≤ b) as cs := by
  induction h1 generalizing cs with
  | nil => cases h2; exact List.Forall₂.nil
  | cons hab _ ih =>
      cases h2 with
      | cons hbc h2rest =>
          exact List.Forall₂.cons ⟨hab.1, le_trans hab.2 hbc.2⟩ (ih h2rest)

/-- Pointwise `0 ≤ a ∧ a ≤ b` is reflexive on non-negative lists. -/
theorem forall2_refl_nonneg (hs : List ℚ) (hnn : ∀ h ∈ hs, 0 ≤ h) :
    List.Forall₂ (fun a b => 0 ≤ a ∧ a ≤ b) hs hs := by
  induction hs with
  | nil => exact List.Forall₂.nil
  | cons h rest ih =>
      exact List.Forall₂.cons
        ⟨hnn h (List.mem_cons_self _ _), le_refl h⟩
        (ih (fun y hy => hnn y (List.mem_cons_of_mem _ hy)))

/-- Any sequence of `destroyAt` calls keeps every segment non-negative and
pointwise no higher than the initial heights. -/
theorem destroySeq_forall2 (w : ℚ) (calls : List (ℚ × ℚ)) :
    ∀ hs : List ℚ, (∀ h ∈ hs, 0 ≤ h) →
      List.Forall₂ (fun a b => 0 ≤ a ∧ a ≤ b) (destroySeq w hs calls) hs := by
  induction calls with
  | nil => intro hs hnn; exact forall2_refl_nonneg hs hnn
  | cons c rest ih =>
      intro hs hnn
      have step := destroyAtAux_nonneg_le w c.1 c.2 0 hs hnn
      have hnn2 := forall2_left_nonneg step
      have tail := ih (destroyAt w hs c.1 c.2) hnn2
      exact forall2_nonneg_le_trans tail step

/-- The padded-and-trimmed roster built by `initializeGame` always has
exactly the required length. -/
theorem padded_take_length (n : Nat) (chosen : List Unit) (pad : Option Unit) :
    ((chosen.map some ++ List.replicate (n - chosen.length) pad).take n).length = n := by
  rw [List.length_take, List.length_append, List.length_map, List.length_replicate]
  omega

/-- Every unit present in the padded-and-trimmed roster comes from the
catalog, provided the chosen list does. -/
theorem mem_padded_take (all chosen : List Unit) (n : Nat) (u : Unit)
    (hsub : ∀ v ∈ chosen, v ∈ all)
    (hu : some u ∈ (chosen.map some ++ List.replicate (n - chosen.length)
        (match chosen.head? with | some v => some v | none => all.head?)).take n) :
    u ∈ all := by
  have hu2 := List.mem_of_mem_take hu
  rcases List.mem_append.mp hu2 with hmap | hrep
  · rcases List.mem_map.mp hmap with ⟨v, hv, hveq⟩
    have : v = u := Option.some.inj hveq
    exact this ▸ hsub v hv
  · have hpad := List.eq_of_mem_replicate hrep
    cases hch : chosen.head? with
    | some v =>
        rw [hch] at hpad
        have huv : u = v := Option.some.inj hpad
        cases chosen with
        | nil => simp at hch
        | cons c cs =>
            have : v = c := by
              have : some v = some c := by
                rw [← hch]; rfl
              exact Option.some.inj this
            exact huv ▸ this ▸ hsub c (List.mem_cons_self _ _)
    | none =>
        rw [hch] at hpad
        cases all with
        | nil => simp at hpad
        | cons a rest =>
            have : u = a := by
              have : some u = some a := by
                rw [hpad]; rfl
              exact Option.some.inj this
            exact this ▸ List.mem_cons_self _ _

/-- The roster produced by `initializeGame` is the padded-and-trimmed form
of a chosen list drawn from the catalog. -/
theorem initializeGame_units_eq (all : List Unit) (s : GameState)
    (sel : Option (List String)) (r : ℚ) :
    ∃ chosen : List Unit, (∀ v ∈ chosen, v ∈ all)
      ∧ (initializeGame all s sel r).units
          = (chosen.map some ++ List.replicate (s.unitsPerTeam * 2 - chosen.length)
              (match chosen.head? with | some v => some v | none => all.head?)).take
            (s.unitsPerTeam * 2) := by
  cases sel with
  | none =>
      exact ⟨all.take (s.unitsPerTeam * 2),
        fun v hv => List.mem_of_mem_take hv, rfl⟩
  | some ids =>
      by_cases hlen : ids.length > 0
      · refine ⟨ids.filterMap (fun i => all.find? (fun u => u.id == i)), ?_, ?_⟩
        · intro v hv
          rcases List.mem_filterMap.mp hv with ⟨i, _, hfind⟩
          exact List.mem_of_find?_eq_some hfind
        · simp only [initializeGame, hlen, if_pos]
      · refine ⟨all.take (s.unitsPerTeam * 2),
          fun v hv => List.mem_of_mem_take hv, ?_⟩
        simp only [initializeGame, hlen, if_neg, if_false]

/-! Claim theorems. -/

/-- C1 counterexample: with four units, acting index 1 and exactly unit
index 2 eliminated, `nextTurn` selects index 2 — the eliminated unit — and
not index 3 as the claim demands. The store holds no elimination data at
all, so the rotation cannot skip. -/
theorem nextTurn_selects_eliminated :
    (nextTurn exampleMatchState 0).currentTurn = 2
    ∧ exampleEliminated ((nextTurn exampleMatchState 0).currentTurn) = true
    ∧ (nextTurn exampleMatchState 0).currentTurn ≠ 3 := by
  refine ⟨rfl, rfl, by decide⟩

/-- C1 (amended): `nextTurn` advances the acting index cyclically by one —
`(currentTurn + 1) % units.length` — with no regard to elimination status,
leaves the roster unchanged, and re-randomises the wind into `[-1, 1)` from
a draw `r ∈ [0, 1)`; in particular, from unit 1 of 4 with unit 2 eliminated
it yields unit 2, the eliminated one. -/
theorem nextTurn_blind_rotation (s : GameState) (r : ℚ) (h0 : 0 ≤ r) (h1 : r < 1) :
    (nextTurn s r).currentTurn = (s.currentTurn + 1) % s.units.length
    ∧ (nextTurn s r).units = s.units
    ∧ -1 ≤ (nextTurn s r).wind ∧ (nextTurn s r).wind < 1 := by
  refine ⟨rfl, rfl, ?_, ?_⟩
  · show -1 ≤ (r - 1/2) * 2
    linarith
  · show (r - 1/2) * 2 < 1
    linarith

/-- C1 witness: the amended rotation law applied to the concrete four-unit
state at draw 0. -/
theorem nextTurn_blind_rotation_witness :
    ((0 : ℚ) ≤ 0 ∧ (0 : ℚ) < 1)
    ∧ ((nextTurn exampleMatchState 0).currentTurn
          = (exampleMatchState.currentTurn + 1) % exampleMatchState.units.length
       ∧ (nextTurn exampleMatchState 0).units = exampleMatchState.units
       ∧ -1 ≤ (nextTurn exampleMatchState 0).wind
       ∧ (nextTurn exampleMatchState 0).wind < 1) :=
  ⟨⟨le_refl 0, by norm_num⟩,
    nextTurn_blind_rotation exampleMatchState 0 (le_refl 0) (by norm_num)⟩

/-- C2 counterexample: in the GameEngine.tsx collision handler a unit at
distance exactly `r` takes the full damage `d`, not `round(0.5*d)`: with
radius 40 and damage 30 the unit at distance 40 is dealt 30, where the
claim demands `round(15) = 15`. -/
theorem tsxBlast_flat_at_radius :
    tsxBlastDealt 40 30 40 = 30
    ∧ round ((1/2 : ℚ) * 30) = (15 : ℤ)
    ∧ (30 : ℚ) ≠ ((15 : ℤ) : ℚ) := by
  refine ⟨by norm_num [tsxBlastDealt], ?_, by norm_num⟩
  rw [round_eq]
  norm_num

/-- C2 (amended): in the `applyAreaDamage` resolver with radius `r > 0` and
integer base damage `d`, a unit at distance 0 takes exactly `d`, a unit at
distance `r` takes `round(0.5*d)`, a unit beyond `r` takes 0, and a unit at
distance `dist ≤ r` takes `round(d * (0.5 + 0.5*(1 - dist/r)))`; in the
GameEngine.tsx collision loop, however, every unit within `r` takes the
flat damage `d`. -/
theorem areaDealt_falloff (r dist : ℚ) (d : ℤ) (hr : 0 < r) (hdist : dist ≤ r) :
    areaDealt r d 0 = d
    ∧ areaDealt r d r = round ((1/2 : ℚ) * d)
    ∧ (∀ far : ℚ, r < far → areaDealt r d far = 0)
    ∧ areaDealt r d dist = round ((d : ℚ) * (1/2 + 1/2 * (1 - dist / r)))
    ∧ tsxBlastDealt r d dist = d := by
  have hr0 : r ≠ 0 := ne_of_gt hr
  refine ⟨?_, ?_, ?_, ?_, ?_⟩
  · show (if (0 : ℚ) ≤ r then round ((d : ℚ) * (1/2 + 1/2 * (1 - 0 / r))) else 0) = d
    rw [if_pos hr.le]
    have h1 : (d : ℚ) * (1/2 + 1/2 * (1 - 0 / r)) = (d : ℚ) := by
      rw [zero_div]; ring
    rw [h1, round_intCast]
  · show (if r ≤ r then round ((d : ℚ) * (1/2 + 1/2 * (1 - r / r))) else 0)
        = round ((1/2 : ℚ) * d)
    rw [if_pos (le_refl r)]
    have h1 : (d : ℚ) * (1/2 + 1/2 * (1 - r / r)) = (1/2 : ℚ) * d := by
      rw [div_self hr0]; ring
    rw [h1]
  · intro far hfar
    show (if far ≤ r then round ((d : ℚ) * (1/2 + 1/2 * (1 - far / r))) else 0) = 0
    rw [if_neg (not_le.mpr hfar)]
  · show (if dist ≤ r then round ((d : ℚ) * (1/2 + 1/2 * (1 - dist / r))) else 0)
        = round ((d : ℚ) * (1/2 + 1/2 * (1 - dist / r)))
    rw [if_pos hdist]
  · show (if dist ≤ r then (d : ℚ) else 0) = (d : ℚ)
    rw [if_pos hdist]

/-- C2 witness: the falloff law at radius 40, damage 30, distance 20 — the
spec's head-on scenario. -/
theorem areaDealt_falloff_witness :
    ((0 : ℚ) < 40 ∧ (20 : ℚ) ≤ 40)
    ∧ (areaDealt 40 ((30 : ℤ) : ℚ) 0 = (30 : ℤ)
       ∧ areaDealt 40 ((30 : ℤ) : ℚ) 40 = round ((1/2 : ℚ) * ((30 : ℤ) : ℚ))
       ∧ (∀ far : ℚ, 40 < far → areaDealt 40 ((30 : ℤ) : ℚ) far = 0)
       ∧ areaDealt 40 ((30 : ℤ) : ℚ) 20
           = round (((30 : ℤ) : ℚ) * (1/2 + 1/2 * (1 - 20 / 40)))
       ∧ tsxBlastDealt 40 ((30 : ℤ) : ℚ) 20 = ((30 : ℤ) : ℚ)) :=
  ⟨⟨by norm_num, by norm_num⟩,
    areaDealt_falloff 40 20 30 (by norm_num) (by norm_num)⟩

/-- C3 counterexample: a unit with health 10 taking a single non-negative
damage amount 30 ends at health -20 — negative, with no clamp to 0. -/
theorem takeDamage_negative_health :
    (0 : ℚ) ≤ 30
    ∧ (takeDamageV2 10 30).1 = -20
    ∧ (takeDamageV2 10 30).1 < 0 := by
  refine ⟨by norm_num, ?_, ?_⟩ <;> norm_num [takeDamageV2]

/-- C3 (amended): `takeDamage` subtracts the (possibly shield-mitigated)
amount from health with no clamping, so health can become negative; health
is non-increasing under non-negative amounts, across whole sequences of
applications, and the unit is flagged for removal from the scene and roster
exactly when the resulting health is `≤ 0`. -/
theorem takeDamage_unclamped (sh : Bool) (h a : ℚ) (amounts : List ℚ)
    (ha : 0 ≤ a) (hall : ∀ x ∈ amounts, 0 ≤ x) :
    (takeDamageV2 h a).1 = h - a
    ∧ ((takeDamageV2 h a).2 = true ↔ h - a ≤ 0)
    ∧ (takeDamageV1 sh h a).1 ≤ h
    ∧ ((takeDamageV1 sh h a).2 = true ↔ (takeDamageV1 sh h a).1 ≤ 0)
    ∧ runDamageSeqV2 h amounts ≤ h := by
  refine ⟨rfl, by simp [takeDamageV2], ?_, by simp [takeDamageV1], ?_⟩
  · cases sh with
    | false =>
        show h - a ≤ h
        exact sub_le_self h ha
    | true =>
        have hmit : (0 : ℚ) ≤ max 0 (a * (6/10)) := le_max_left 0 _
        show h - max 0 (a * (6/10)) ≤ h
        exact sub_le_self h hmit
  · exact runDamageSeqV2_le amounts h hall

/-- C3 witness: the no-clamp damage law for an unshielded unit at health
100 hit for 30, then for the sequence [30, 80]. -/
theorem takeDamage_unclamped_witness :
    ((0 : ℚ) ≤ 30 ∧ (∀ x ∈ ([30, 80] : List ℚ), 0 ≤ x))
    ∧ ((takeDamageV2 100 30).1 = 100 - 30
       ∧ ((takeDamageV2 100 30).2 = true ↔ (100 : ℚ) - 30 ≤ 0)
       ∧ (takeDamageV1 false 100 30).1 ≤ 100
       ∧ ((takeDamageV1 false 100 30).2 = true ↔ (takeDamageV1 false 100 30).1 ≤ 0)
       ∧ runDamageSeqV2 100 [30, 80] ≤ 100) :=
  ⟨⟨by norm_num, by norm_num [List.forall_mem_cons]⟩,
    takeDamage_unclamped false 100 30 [30, 80] (by norm_num)
      (by norm_num [List.forall_mem_cons])⟩

/-- C4 counterexample: repeating an identical `destroyAt` call subtracts
again. One segment of height 100, epicentre on the segment, radius 10: the
first call leaves 90, the repeated identical call leaves 80 — the damage is
double-subtracted, not idempotent. -/
theorem destroyAt_repeat_subtracts_again :
    destroyAt 16 [100] 0 10 = [90]
    ∧ destroyAt 16 (destroyAt 16 [100] 0 10) 0 10 = [80]
    ∧ (([80] : List ℚ) ≠ [90]) := by
  refine ⟨?_, ?_, by norm_num⟩ <;> norm_num [destroyAt, destroyAtAux, max_def]

/-- C4 (amended, spec-modelled): each `destroyAt` call reduces every
segment within `radius` of `x` by `radius - distance` clamped at 0; across
every sequence of calls all segment heights stay non-negative and pointwise
never increase — but an identical repeated call subtracts the falloff again
rather than being idempotent. -/
theorem destroyAt_monotone_nonneg (w : ℚ) (hs : List ℚ) (calls : List (ℚ × ℚ))
    (hnn : ∀ h ∈ hs, 0 ≤ h) :
    (∀ h ∈ destroySeq w hs calls, 0 ≤ h)
    ∧ List.Forall₂ (fun a b => a ≤ b) (destroySeq w hs calls) hs := by
  have f2 := destroySeq_forall2 w calls hs hnn
  exact ⟨forall2_left_nonneg f2, f2.imp (fun a b hab => hab.2)⟩

/-- C4 witness: the terrain invariant on heights [100, 50] under the call
sequence [(0, 10), (0, 10)]. -/
theorem destroyAt_monotone_nonneg_witness :
    (∀ h ∈ ([100, 50] : List ℚ), 0 ≤ h)
    ∧ ((∀ h ∈ destroySeq 16 [100, 50] [(0, 10), (0, 10)], 0 ≤ h)
       ∧ List.Forall₂ (fun a b => a ≤ b)
           (destroySeq 16 [100, 50] [(0, 10), (0, 10)]) [100, 50]) :=
  ⟨by norm_num [List.forall_mem_cons],
    destroyAt_monotone_nonneg 16 [100, 50] [(0, 10), (0, 10)]
      (by norm_num [List.forall_mem_cons])⟩

/-- C5 counterexample: a `mirv` firing action spawns the shell plus five
children, every impact resolves with `advanceTurn = true`, and `onCollision`
schedules one `nextTurn` per such impact, so the turn advances 6 times for
this single firing action — not exactly once. -/
theorem mirv_advances_six_times :
    turnAdvancesPerFiring "mirv" = 6 ∧ (6 : Nat) ≠ 1 := by
  refine ⟨by decide, by decide⟩

/-- C5 (amended): in the first GameEngine variant every projectile impact
advances the turn once (`handleWeaponImpact` always reports
`advanceTurn = true`), so single-projectile weapons and the direct effects
(laser beam, black hole) advance exactly once per firing action, but
`meteor_shower` advances 5 times and `mirv` 6 times — once per fragment
impact; the GameEngine.tsx firing effect advances exactly once per action
through `finishTurn`, for every weapon effect. -/
theorem turn_advances_once_per_impact :
    (∀ k : String, handleWeaponImpactAdvance k = true)
    ∧ turnAdvancesPerFiring "rocket" = 1
    ∧ turnAdvancesPerFiring "nuke" = 1
    ∧ turnAdvancesPerFiring "laser_beam" = 1
    ∧ turnAdvancesPerFiring "black_hole" = 1
    ∧ turnAdvancesPerFiring "meteor_shower" = 5
    ∧ turnAdvancesPerFiring "mirv" = 6
    ∧ (∀ (ammoCount : Nat) (eff : String), (tsxFiringEffect ammoCount true eff).2 = 1) := by
  refine ⟨?_, by decide, by decide, by decide, by decide, by decide, by decide, ?_⟩
  · intro k
    unfold handleWeaponImpactAdvance
    cases weaponDamageSpec k <;> simp
  · intro n eff
    unfold tsxFiringEffect
    by_cases h1 : eff = "teleport" <;> by_cases h2 : eff = "fly" <;>
      by_cases h3 : eff = "beam" <;> simp [h1, h2, h3]

/-- C6 counterexample: the GameEngine.tsx firing effect never consults the
ammo count (the source comment disables the check), so a fire request with
0 tracked ammo still spawns a projectile and advances the turn — not a
no-op. -/
theorem tsxFiring_ignores_ammo :
    tsxFiringEffect 0 true "blast" = (1, 1)
    ∧ (((1, 1) : Nat × Nat) ≠ (0, 0)) := by
  refine ⟨by decide, by decide⟩

/-- C6 (amended, spec-modelled): the part_003 key-handler fire guard is a
no-op — same store, no projectile — whenever the selected weapon has a
nonzero cooldown remaining or a tracked ammo count of 0, and `consumeAmmo`
on a tracked weapon with count `n+1` succeeds leaving count `n`; the
GameEngine.tsx firing effect, by contrast, fires regardless of ammo. -/
theorem fireGuard_noop_and_consume (s : ArmedStore) (w v : String) (n : Nat) :
    (s.cooldowns w ≠ 0 → handleFireKey s w = (s, 0))
    ∧ (s.ammo w = some 0 → handleFireKey s w = (s, 0))
    ∧ (s.ammo v = some (n + 1) →
        (consumeAmmo s v).1 = true ∧ ((consumeAmmo s v).2).ammo v = some n) := by
  refine ⟨?_, ?_, ?_⟩
  · intro hc
    unfold handleFireKey
    rw [if_pos hc]
  · intro ha
    unfold handleFireKey
    by_cases hc : s.cooldowns w ≠ 0
    · rw [if_pos hc]
    · rw [if_neg hc]
      have hcons : consumeAmmo s w = (false, s) := by
        simp [consumeAmmo, ha]
      rw [hcons]
  · intro hv
    constructor
    · simp [consumeAmmo, hv]
    · simp [consumeAmmo, hv]

/-- C6 witness: the fire guard on the concrete store — `rocket` tracked at
0 ammo with a running cooldown, `nuke` tracked with 3 rounds. -/
theorem fireGuard_noop_and_consume_witness :
    (exampleStore.cooldowns "rocket" ≠ 0
     ∧ exampleStore.ammo "rocket" = some 0
     ∧ exampleStore.ammo "nuke" = some (2 + 1))
    ∧ (handleFireKey exampleStore "rocket" = (exampleStore, 0)
       ∧ handleFireKey exampleStore "rocket" = (exampleStore, 0)
       ∧ ((consumeAmmo exampleStore "nuke").1 = true
          ∧ ((consumeAmmo exampleStore "nuke").2).ammo "nuke" = some 2)) := by
  have hc : exampleStore.cooldowns "rocket" ≠ 0 := by decide
  have h0 : exampleStore.ammo "rocket" = some 0 := by decide
  have h3 : exampleStore.ammo "nuke" = some (2 + 1) := by decide
  have h := fireGuard_noop_and_consume exampleStore "rocket" "nuke" 2
  exact ⟨⟨hc, h0, h3⟩, ⟨h.1 hc, h.2.1 h0, h.2.2 h3⟩⟩

/-- C7: the fragment spawn itself matches the claim — a `cluster` impact
spawns exactly 4 fragments, each carrying effect `blast` with radius and
damage halved under floors 20 and 10, and running the spawn branch on the
fragment weapon value spawns nothing — but the collision handler resolves
an impacting projectile's weapon by catalog id (`weapons.find` on
`plugin.weaponId`), and a fragment inherits the parent's id, so a
fragment's own impact spawns 4 further full-strength fragments: the
spawning recursion does not stop after one level. -/
theorem cluster_fragment_respawns :
    spawnFragments clusterBomb = List.replicate 4 (fragWeapon clusterBomb)
    ∧ (fragWeapon clusterBomb).effect = "blast"
    ∧ (fragWeapon clusterBomb).radius = 25
    ∧ (fragWeapon clusterBomb).damage = 20
    ∧ (fragWeapon clusterBomb).id = clusterBomb.id
    ∧ spawnFragments (fragWeapon clusterBomb) = []
    ∧ (impactSpawns exampleCatalog (fragWeapon clusterBomb)).length = 4 := by
  refine ⟨?_, rfl, ?_, ?_, rfl, ?_, ?_⟩
  · simp [spawnFragments, clusterBomb]
  · norm_num [fragWeapon, clusterBomb, max_def]
  · norm_num [fragWeapon, clusterBomb, max_def]
  · simp [spawnFragments, fragWeapon, clusterBomb]
  · simp [impactSpawns, resolveWeapon, exampleCatalog, spawnFragments,
      fragWeapon, clusterBomb, List.find?]

/-- C8 counterexample: the unit at (5, 20) sits at perpendicular distance
exactly 20 — the hit tolerance — from the laser segment (0,0)→(600,0) (the
first conjunct is the squared form of distance = 20), yet `applyLineDamage`
deals it 0 rather than the flat damage 20 the claim requires at distance at
most the tolerance. -/
theorem lineDamage_misses_at_exact_tolerance :
    (((0 : ℚ) - 0) * 5 + ((0 : ℚ) - 600) * 20 + (600 * 0 - 0 * 0)) ^ 2
        = 20 ^ 2 * (((0 : ℚ) - 0) ^ 2 + ((0 : ℚ) - 600) ^ 2)
    ∧ lineHitStrict 0 0 600 0 5 20 = false
    ∧ applyLineDamageDealt 0 0 600 0 5 20 20 = 0
    ∧ ((0 : ℚ) ≠ 20) := by
  refine ⟨by norm_num, ?_, ?_, by norm_num⟩
  · norm_num [lineHitStrict]
  · norm_num [applyLineDamageDealt, lineHitStrict]

/-- C8 (amended): `applyLineDamage` applies the weapon's flat damage (no
falloff) to units at perpendicular distance strictly below the tolerance 20
and nothing to the rest, so a unit at distance exactly 20 takes none; the
GameEngine.tsx beam branch hits inclusively at distance up to 20 — it does
hit at exactly 20 — but skips dead units and the acting unit. -/
theorem line_and_beam_flat_damage (x1 y1 x2 y2 px py qx qy dmg : ℚ)
    (mx my ex ey ux uy : ℚ) (ct i j : Nat) (alive : Bool) :
    (lineHitStrict x1 y1 x2 y2 px py = true →
        applyLineDamageDealt x1 y1 x2 y2 px py dmg = dmg)
    ∧ (lineHitStrict x1 y1 x2 y2 qx qy = false →
        applyLineDamageDealt x1 y1 x2 y2 qx qy dmg = 0)
    ∧ (alive = true → i ≠ ct → beamHit mx my ex ey ux uy = true →
        beamDealt ct i alive mx my ex ey ux uy dmg = dmg)
    ∧ (j = ct → beamDealt ct j alive mx my ex ey ux uy dmg = 0)
    ∧ beamHit 0 0 600 0 5 20 = true := by
  refine ⟨?_, ?_, ?_, ?_, ?_⟩
  · intro hhit
    simp [applyLineDamageDealt, hhit]
  · intro hmiss
    simp [applyLineDamageDealt, hmiss]
  · intro halive hidx hhit
    simp [beamDealt, halive, hidx, hhit]
  · intro hj
    simp [beamDealt, hj]
  · norm_num [beamHit]

/-- C8 witness: the flat-damage law on the segment (0,0)→(600,0) with a
unit strictly inside the tolerance at (5, 10), a unit outside at (5, 30),
and the beam applied to a living non-acting unit at (5, 20). -/
theorem line_and_beam_flat_damage_witness :
    (lineHitStrict 0 0 600 0 5 10 = true
     ∧ lineHitStrict 0 0 600 0 5 30 = false
     ∧ (true = true) ∧ ((1 : Nat) ≠ 0) ∧ beamHit 0 0 600 0 5 20 = true
     ∧ ((0 : Nat) = 0))
    ∧ (applyLineDamageDealt 0 0 600 0 5 10 20 = 20
       ∧ applyLineDamageDealt 0 0 600 0 5 30 20 = 0
       ∧ beamDealt 0 1 true 0 0 600 0 5 20 20 = 20
       ∧ beamDealt 0 0 true 0 0 600 0 5 20 20 = 0) := by
  have hhit : lineHitStrict 0 0 600 0 5 10 = true := by norm_num [lineHitStrict]
  have hmiss : lineHitStrict 0 0 600 0 5 30 = false := by norm_num [lineHitStrict]
  have hbeam : beamHit 0 0 600 0 5 20 = true := by norm_num [beamHit]
  have h := line_and_beam_flat_damage 0 0 600 0 5 10 5 30 20 0 0 600 0 5 20 0 1 0 true
  exact ⟨⟨hhit, hmiss, rfl, by norm_num, hbeam, rfl⟩,
    ⟨h.1 hhit, h.2.1 hmiss, h.2.2.1 rfl (by norm_num) hbeam, h.2.2.2.1 rfl⟩⟩

/-- C9 counterexample: the black-hole force magnitude is not inversely
proportional to the squared distance. Two bodies on the axis at distances
10 and 20 from the well receive magnitudes 1/20000 and 1/40000; an
inverse-square law demands `magnitude * distance^2` be the same for both,
but `(1/20000)*10^2 = 1/200` while `(1/40000)*20^2 = 1/100`. -/
theorem blackHole_not_inverse_square :
    blackHoleForce 0 0 10 0 = (-(1/20000), 0)
    ∧ blackHoleForce 0 0 20 0 = (-(1/40000), 0)
    ∧ ((1/20000 : ℚ) * 10 ^ 2 ≠ (1/40000 : ℚ) * 20 ^ 2) := by
  refine ⟨?_, ?_, by norm_num⟩ <;> norm_num [blackHoleForce, max_def, Prod.ext_iff]

/-- C9 (amended): each tick every non-static body receives the force
`(dx, dy) * (0.0005 / max(100, dx^2 + dy^2))` along the displacement toward
the well — a positive multiple of the direction vector, whose magnitude
beyond the clamp satisfies `|F|^2 * dist^2 = 0.0005^2`, i.e. it is
inversely proportional to the distance (not its square), with the squared
distance clamped below at 100; the well lives 2000 ms, after which it is
removed from the world and the turn advances. -/
theorem blackHole_force_law (wx wy px py : ℚ)
    (hfar : 100 ≤ (wx - px) * (wx - px) + (wy - py) * (wy - py)) :
    blackHoleForce wx wy px py
        = ((wx - px) * ((1/2000) / ((wx - px) * (wx - px) + (wy - py) * (wy - py))),
           (wy - py) * ((1/2000) / ((wx - px) * (wx - px) + (wy - py) * (wy - py))))
    ∧ 0 < (1/2000 : ℚ) / ((wx - px) * (wx - px) + (wy - py) * (wy - py))
    ∧ ((blackHoleForce wx wy px py).1 ^ 2 + (blackHoleForce wx wy px py).2 ^ 2)
        * ((wx - px) * (wx - px) + (wy - py) * (wy - py)) = (1/2000 : ℚ) ^ 2
    ∧ blackHoleLifetimeMs = 2000
    ∧ blackHoleExpiry.removesWell = true
    ∧ blackHoleExpiry.advancesTurn = true := by
  have hpos : (0 : ℚ) < (wx - px) * (wx - px) + (wy - py) * (wy - py) := by linarith
  have hne : (wx - px) * (wx - px) + (wy - py) * (wy - py) ≠ 0 := ne_of_gt hpos
  have hmax : max 100 ((wx - px) * (wx - px) + (wy - py) * (wy - py))
      = (wx - px) * (wx - px) + (wy - py) * (wy - py) := max_eq_right hfar
  refine ⟨?_, div_pos (by norm_num) hpos, ?_, rfl, rfl, rfl⟩
  · simp only [blackHoleForce, hmax]
  · simp only [blackHoleForce, hmax]
    field_simp
    ring

/-- C9 witness: the force law at the well (0,0) acting on the body
(10, 0), squared distance exactly at the clamp boundary. -/
theorem blackHole_force_law_witness :
    ((100 : ℚ) ≤ ((0 : ℚ) - 10) * ((0 : ℚ) - 10) + ((0 : ℚ) - 0) * ((0 : ℚ) - 0))
    ∧ (blackHoleForce 0 0 10 0
          = (((0 : ℚ) - 10) * ((1/2000) / (((0 : ℚ) - 10) * ((0 : ℚ) - 10) + ((0 : ℚ) - 0) * ((0 : ℚ) - 0))),
             ((0 : ℚ) - 0) * ((1/2000) / (((0 : ℚ) - 10) * ((0 : ℚ) - 10) + ((0 : ℚ) - 0) * ((0 : ℚ) - 0))))
       ∧ 0 < (1/2000 : ℚ) / (((0 : ℚ) - 10) * ((0 : ℚ) - 10) + ((0 : ℚ) - 0) * ((0 : ℚ) - 0))
       ∧ ((blackHoleForce 0 0 10 0).1 ^ 2 + (blackHoleForce 0 0 10 0).2 ^ 2)
           * (((0 : ℚ) - 10) * ((0 : ℚ) - 10) + ((0 : ℚ) - 0) * ((0 : ℚ) - 0)) = (1/2000 : ℚ) ^ 2
       ∧ blackHoleLifetimeMs = 2000
       ∧ blackHoleExpiry.removesWell = true
       ∧ blackHoleExpiry.advancesTurn = true) :=
  ⟨by norm_num, blackHole_force_law 0 0 10 0 (by norm_num)⟩

/-- C10 counterexample: `initializeGame` at random draw 0 sets the wind to
exactly -1, which is not strictly within [-1, 1]. -/
theorem initializeGame_wind_reaches_minus_one :
    (initializeGame exampleCatalogUnits defaultState none 0).wind = -1
    ∧ ¬ (-1 < (initializeGame exampleCatalogUnits defaultState none 0).wind) := by
  constructor
  · show ((0 : ℚ) - 1/2) * 2 = -1
    norm_num
  · show ¬ (-1 < ((0 : ℚ) - 1/2) * 2)
    norm_num

/-- C10 (amended): for every catalog, prior state, optional selection and
random draw `r ∈ [0, 1)`, `initializeGame` produces exactly
`unitsPerTeam * 2` roster slots (unknown ids dropped, short selections
padded with the first chosen entry or the first catalog unit, long ones
trimmed — every unit placed comes from the catalog), sets `currentTurn` to
0 and `setupCompleted` to true, and sets the wind into `[-1, 1)`: at least
-1 (attained at draw 0) and strictly below 1. -/
theorem initializeGame_shape (all : List Unit) (s : GameState)
    (sel : Option (List String)) (r : ℚ) (h0 : 0 ≤ r) (h1 : r < 1) :
    (initializeGame all s sel r).units.length = s.unitsPerTeam * 2
    ∧ (initializeGame all s sel r).currentTurn = 0
    ∧ (initializeGame all s sel r).setupCompleted = true
    ∧ -1 ≤ (initializeGame all s sel r).wind
    ∧ (initializeGame all s sel r).wind < 1
    ∧ ∀ u : Unit, some u ∈ (initializeGame all s sel r).units → u ∈ all := by
  obtain ⟨chosen, hsub, hunits⟩ := initializeGame_units_eq all s sel r
  have hw : (initializeGame all s sel r).wind = (r - 1/2) * 2 := rfl
  refine ⟨?_, rfl, rfl, ?_, ?_, ?_⟩
  · rw [hunits]
    exact padded_take_length _ chosen _
  · rw [hw]; linarith
  · rw [hw]; linarith
  · intro u hu
    rw [hunits] at hu
    exact mem_padded_take all chosen _ u hsub hu

/-- C10 witness: `initializeGame` on the concrete catalog with the
selection [drone, bogus] (one valid id, one unknown) at draw 1/2. -/
theorem initializeGame_shape_witness :
    ((0 : ℚ) ≤ 1/2 ∧ (1/2 : ℚ) < 1)
    ∧ ((initializeGame exampleCatalogUnits defaultState (some ["drone", "bogus"]) (1/2)).units.length
          = defaultState.unitsPerTeam * 2
       ∧ (initializeGame exampleCatalogUnits defaultState (some ["drone", "bogus"]) (1/2)).currentTurn = 0
       ∧ (initializeGame exampleCatalogUnits defaultState (some ["drone", "bogus"]) (1/2)).setupCompleted = true
       ∧ -1 ≤ (initializeGame exampleCatalogUnits defaultState (some ["drone", "bogus"]) (1/2)).wind
       ∧ (initializeGame exampleCatalogUnits defaultState (some ["drone", "bogus"]) (1/2)).wind < 1
       ∧ ∀ u : Unit,
           some u ∈ (initializeGame exampleCatalogUnits defaultState (some ["drone", "bogus"]) (1/2)).units →
             u ∈ exampleCatalogUnits) :=
  ⟨⟨by norm_num, by norm_num⟩,
    initializeGame_shape exampleCatalogUnits defaultState (some ["drone", "bogus"]) (1/2)
      (by norm_num) (by norm_num)⟩

end Blastfield
